import Mathlib

/-!
Formal model of the smart-finance-planner frontend's CSV-import and
categorization coordinator.

The definitions below are shallow embeddings of the JavaScript source:

* `categoriesData`, `getCategoryById` — src/unnamed/part_008 (category taxonomy);
* `processOneTab`, `processFilesTab` — processFiles in
  src/frontend/src/components/TransactionsTab.vue;
* `processOneP6` — processFiles in src/unnamed/part_006 (401 refresh + retry variant);
* `processOneP7` — processFiles in src/unnamed/part_007, line 1819 prototype
  (refreshes the token on 401 but never re-issues the POST);
* `categorizeStart` / `categorizeFinish` / `categorizeTransaction`,
  `bulkCategorize` — TransactionsTab.vue categorization coordinator;
* `buildParams`, `setFilters`, `toggleSort`, `changePage`, `changePageSize` —
  TransactionsTab.vue list/filter/pagination state.

Network interaction is modelled by a response oracle `net : Nat → ImportResponse`
together with a request counter: each POST to /transactions/import consumes the
next oracle value.  Auth-token fetches are modelled as always succeeding; forced
refreshes (`getIdToken(true)`) are counted.  Chat messages are modelled
structurally (constructor per message shape) rather than as raw strings.
-/

namespace SFP

/-! ## Category taxonomy (src/unnamed/part_008) -/

/-- Leaf node of the taxonomy (a `children` entry in `categoriesData`). -/
structure Subcategory where
  id : String
  name : String
  icon : String
deriving DecidableEq, Repr

/-- Middle-level node of the taxonomy (a `categories` entry). -/
structure Category where
  id : String
  name : String
  icon : String
  children : List Subcategory
deriving DecidableEq, Repr

/-- Top-level node of the taxonomy (a transaction type). -/
structure TransType where
  id : String
  name : String
  icon : String
  categories : List Category
deriving DecidableEq, Repr

/-- Result of a taxonomy lookup: any of the three node kinds. -/
inductive CatNode
  | ttype (t : TransType)
  | cat (c : Category)
  | sub (s : Subcategory)
deriving DecidableEq, Repr

/-- Identifier of a taxonomy node. -/
def CatNode.nodeId : CatNode → String
  | .ttype t => t.id
  | .cat c => c.id
  | .sub s => s.id

/-- Static taxonomy table `categoriesData` of src/unnamed/part_008. -/
def categoriesData : List TransType := [
  { id := "income", name := "INCOME", icon := "apps-add", categories := [
    { id := "benefits-support", name := "Benefits & Support", icon := "comment-check", children := [
      { id := "unemployment-benefits", name := "Unemployment Benefits", icon := "comment-check" },
      { id := "social-benefits", name := "Social Benefits", icon := "comment-heart" } ] },
    { id := "employment-income", name := "Employment Income", icon := "briefcase", children := [
      { id := "salary", name := "Salary", icon := "briefcase" } ] },
    { id := "other-income", name := "Other Income", icon := "gift", children := [
      { id := "gifts-received", name := "Gifts Received", icon := "gift" } ] },
    { id := "investment-income", name := "Investment Income", icon := "credit-card", children := [
      { id := "cashback", name := "Cashback", icon := "credit-card" },
      { id := "dividends-interest", name := "Dividends & Interest", icon := "chat-arrow-grow" } ] } ] },
  { id := "expenses", name := "EXPENSES", icon := "apps-delete", categories := [
    { id := "food", name := "Food", icon := "coffee", children := [
      { id := "cafes-coffee", name := "Cafes & Coffee", icon := "coffee" },
      { id := "groceries", name := "Groceries", icon := "salad" },
      { id := "restaurants", name := "Restaurants", icon := "room-service" },
      { id := "sweets", name := "Sweets", icon := "ice-cream" } ] },
    { id := "family", name := "Family", icon := "kite", children := [
      { id := "sports-activities", name := "Sports Activities", icon := "ice-skate" },
      { id := "child-activities", name := "Child\x27s Activities", icon := "ferris-wheel" },
      { id := "toys-games", name := "Toys & Games", icon := "kite" } ] },
    { id := "housing-utilities", name := "Housing & Utilities", icon := "key", children := [
      { id := "monthly-rent", name := "Monthly Rent", icon := "key" },
      { id := "internet-phone", name := "Internet & Phone", icon := "signal-alt-2" },
      { id := "energy-water", name := "Energy & Water", icon := "bulb" } ] },
    { id := "shopping", name := "Shopping", icon := "shopping-cart", children := [
      { id := "household", name := "Household", icon := "soap" },
      { id := "electronics", name := "Electronics", icon := "gamepad" },
      { id := "clothing-shoes", name := "Clothing & Shoes", icon := "label" },
      { id := "accessories", name := "Accessories", icon := "lipstick" },
      { id := "subscriptions", name := "Subscriptions", icon := "interactive" },
      { id := "guilty-pleasure", name := "Guilty Pleasure", icon := "glass-cheers" } ] },
    { id := "leisure-culture", name := "Leisure & Culture", icon := "ticket", children := [
      { id := "music", name := "Music", icon := "guitar" },
      { id := "social-activities", name := "Social Activities", icon := "ticket" },
      { id := "education", name := "Education", icon := "graduation-cap" },
      { id := "books-media", name := "Books & Media", icon := "book-alt" },
      { id := "hobbies-crafts", name := "Hobbies & Crafts", icon := "palette" } ] },
    { id := "health", name := "Health", icon := "stethoscope", children := [
      { id := "pharmacy", name := "Pharmacy", icon := "band-aid" },
      { id := "medical-services", name := "Medical Services", icon := "stethoscope" },
      { id := "dental-care", name := "Dental Care", icon := "tooth" },
      { id := "gym-fitness", name := "Gym & Fitness", icon := "gym" } ] },
    { id := "transport", name := "Transport", icon := "car", children := [
      { id := "vehicle-registration", name := "Vehicle Registration & Tax", icon := "car" },
      { id := "maintenance-repairs", name := "Maintenance & Repairs", icon := "dashboard" },
      { id := "fuel", name := "Fuel", icon := "gas-pump" },
      { id := "parking-fees", name := "Parking Fees", icon := "road" },
      { id := "public-transport", name := "Public Transport", icon := "train-side" } ] },
    { id := "insurance", name := "Insurance", icon := "document-signed", children := [
      { id := "health-insurance", name := "Health Insurance", icon := "syringe" },
      { id := "home-insurance", name := "Home Insurance", icon := "document-signed" },
      { id := "vehicle-insurance", name := "Vehicle Insurance", icon := "document-signed" } ] },
    { id := "financial-management", name := "Financial Management", icon := "diploma", children := [
      { id := "bureaucracy", name := "Bureaucracy", icon := "diploma" },
      { id := "investment-accounts", name := "Investment Accounts", icon := "earnings" } ] },
    { id := "financial-services", name := "Financial Services", icon := "bank", children := [
      { id := "withdrawal", name := "Withdrawal", icon := "euro" },
      { id := "payment-provider", name := "Payment Provider", icon := "shopping-cart" },
      { id := "bank-services", name := "Bank Services", icon := "bank" } ] } ] },
  { id := "transfers", name := "TRANSFERS", icon := "apps-sort", categories := [
    { id := "account-transfers", name := "Account Transfers", icon := "copy-alt", children := [
      { id := "account-transfers-own", name := "Between Own Accounts", icon := "copy-alt" },
      { id := "account-transfers-family", name := "Family Support", icon := "hand-holding-heart" },
      { id := "account-transfers-reserve", name := "Reserve Transfer", icon := "chart-histogram" } ] },
    { id := "savings-transfer", name := "Savings Transfer", icon := "calculator", children := [
      { id := "savings-transfer-main", name := "Savings Transfer", icon := "calculator" },
      { id := "house-savings", name := "House Savings", icon := "home-location-alt" } ] } ] } ]

/-- Inner loop of `getCategoryById`: scan the categories of one type, checking
the category itself, then its `children` via `find`, before moving on. -/
def scanCategories (i : String) : List Category → Option CatNode
  | [] => none
  | c :: rest =>
    if c.id == i then some (CatNode.cat c)
    else
      match c.children.find? (fun child => child.id == i) with
      | some sub => some (CatNode.sub sub)
      | none => scanCategories i rest

/-- Outer loop of `getCategoryById`: for each transaction type, check the type
itself, then scan its categories; return on the first hit. -/
def scanTypes (i : String) : List TransType → Option CatNode
  | [] => none
  | t :: rest =>
    if t.id == i then some (CatNode.ttype t)
    else
      match scanCategories i t.categories with
      | some n => some n
      | none => scanTypes i rest

/-- Lookup `getCategoryById` of src/unnamed/part_008: nested loops over
`categoriesData` with early return, `null` (here `none`) when nothing matches. -/
def getCategoryById (i : String) : Option CatNode :=
  scanTypes i categoriesData

/-- Depth-first preorder flattening of a category list: each category followed
by its subcategories.  This is the specification-side ordering. -/
def catListNodes : List Category → List CatNode
  | [] => []
  | c :: cs => CatNode.cat c :: (c.children.map CatNode.sub ++ catListNodes cs)

/-- Depth-first preorder flattening of the whole taxonomy:
type, then its categories each followed by their subcategories. -/
def dfsNodes : List TransType → List CatNode
  | [] => []
  | t :: ts => CatNode.ttype t :: (catListNodes t.categories ++ dfsNodes ts)

/-! ## Upload coordinator

Three `processFiles` variants exist in the repository; all share the same
prologue (empty-list return, signed-in check, per-file extension and size
validation) and differ in their handling of the import response:

* TransactionsTab.vue (`processOneTab`): no retry at all; a 401 lands in the
  generic catch and yields an auth error message without a token refresh.
* src/unnamed/part_006 (`processOneP6`): marks the task `error`, force-refreshes
  the token, rebuilds the form and retries the POST once; a successful retry
  flips the task to `success`.
* src/unnamed/part_007 line 1819 (`processOneP7`): force-refreshes the token on
  a 401 but never re-issues the POST; the task stays `error`.
-/

/-- Upload task status (`status` field of a local upload record). -/
inductive UStatus
  | processing
  | success
  | error
deriving DecidableEq, Repr

/-- Import summary object of the server response; fields may be absent, which
the code papers over with `|| 0` / falsiness checks. -/
structure ImportSummary where
  rows_inserted : Option Nat
  rows_duplicated : Option Nat
deriving DecidableEq, Repr

/-- Outcome of one POST to /transactions/import, as the catch cascades
distinguish it: success, HTTP 401, another HTTP error carrying a
`data.detail`, a timeout (ECONNABORTED), a 5xx with no detail, or any other
failure carrying only `error.message`. -/
inductive ImportResponse
  | ok (batch_id : String) (summary : ImportSummary)
  | http401
  | httpDetail (detail : String)
  | timeout
  | http5xx
  | netFail (message : String)
deriving DecidableEq, Repr

/-- Error text chosen by the catch cascades (modelled structurally, one
constructor per distinct message template). -/
inductive UploadErrText
  | authFailed
  | serverDetail (d : String)
  | timeoutMsg
  | serverErrorMsg
  | otherMsg (m : String)
  | unknownError
deriving DecidableEq, Repr

/-- Chat-style messages emitted through `add-chat-message` (and the
categorization confirmations used further below). -/
inductive ChatMsg
  | signInPrompt
  | rejectType (filename : String)
  | rejectSize (filename : String)
  | uploading (filename : String)
  | importOk (filename : String) (rows : Nat) (dupNote : Option Nat)
  | importOkAlways (filename : String) (rows : Nat) (dup : Nat)
  | importFailed (filename : String) (text : UploadErrText)
  | manualCategorized (categoryName : Option String)
  | categorizeFailedMsg
  | bulkOk (count : Nat) (categoryName : Option String)
  | bulkFailedMsg
deriving DecidableEq, Repr

/-- Input file: name and size in bytes. -/
structure FileInfo where
  name : String
  size : Nat
deriving DecidableEq, Repr

/-- Local upload record (`upload` object); `batch_id` and `summary` exist only
in the TransactionsTab.vue / part_007 variants and stay `none` for part_006. -/
structure UploadTask where
  filename : String
  status : UStatus
  rows : Nat
  batch_id : Option String
  summary : Option ImportSummary
deriving DecidableEq, Repr

/-- Observable effects of processing one file. `statusTrace` records every
value the task's `status` field takes, in order (empty when the file is
rejected before a task is created); `importRequests` counts POSTs to
/transactions/import; `tokenRefreshes` counts `getIdToken(true)` calls;
`reloaded` records whether the success path triggered the summary/list
reload (or `refresh-transactions` emit). -/
structure FileOutcome where
  messages : List ChatMsg
  task : Option UploadTask
  statusTrace : List UStatus
  importRequests : Nat
  tokenRefreshes : Nat
  reloaded : Bool
deriving DecidableEq, Repr

/-- Extension check shared by all variants: the source lower-cases the name
(`file.name.toLowerCase()`) and tests `endsWith('.csv')` /
`endsWith('.xlsx')`; modelled over the character list of the name (the
per-character lower-casing and list suffix test agree with the string
operations) so that it evaluates on concrete names. -/
def validUploadName (n : String) : Bool :=
  List.isSuffixOf ".csv".data (n.data.map Char.toLower) ||
  List.isSuffixOf ".xlsx".data (n.data.map Char.toLower)

/-- Outcome of a rejected file: one rejection message, no task, no request. -/
def rejectOutcome (m : ChatMsg) : FileOutcome :=
  { messages := [m], task := none, statusTrace := [], importRequests := 0,
    tokenRefreshes := 0, reloaded := false }

/-- Error text cascade of TransactionsTab.vue: 401, then `data.detail`, then
ECONNABORTED, else the generic unknown-error text. -/
def tabErrText : ImportResponse → UploadErrText
  | .http401 => .authFailed
  | .httpDetail d => .serverDetail d
  | .timeout => .timeoutMsg
  | _ => .unknownError

/-- Duplicates note of the TransactionsTab.vue / part_007 success message:
`response.data.summary.rows_duplicated ? ... : ''` — shown only when truthy. -/
def dupNoteOf (s : ImportSummary) : Option Nat :=
  if s.rows_duplicated.getD 0 = 0 then none else some (s.rows_duplicated.getD 0)

/-- Per-file flow of `processFiles` in TransactionsTab.vue: validate, create a
`processing` task, POST once; on success mark `success`, record
`rows_inserted || 0`, emit the success message and reload; on any failure mark
`error` and emit the cascade's message.  There is no 401 retry and no token
refresh in this variant. -/
def processOneTab (f : FileInfo) (net : Nat → ImportResponse) (k : Nat) :
    FileOutcome × Nat :=
  if !(validUploadName f.name) then (rejectOutcome (.rejectType f.name), k)
  else if f.size > 10 * 1024 * 1024 then (rejectOutcome (.rejectSize f.name), k)
  else
    match net k with
    | .ok bid s =>
        ({ messages := [.uploading f.name,
              .importOk f.name (s.rows_inserted.getD 0) (dupNoteOf s)],
           task := some { filename := f.name, status := .success,
                          rows := s.rows_inserted.getD 0, batch_id := some bid,
                          summary := some s },
           statusTrace := [.processing, .success], importRequests := 1,
           tokenRefreshes := 0, reloaded := true }, k + 1)
    | e =>
        ({ messages := [.uploading f.name, .importFailed f.name (tabErrText e)],
           task := some { filename := f.name, status := .error, rows := 0,
                          batch_id := none, summary := none },
           statusTrace := [.processing, .error], importRequests := 1,
           tokenRefreshes := 0, reloaded := false }, k + 1)

/-- Error text cascade of the part_007 prototype: after the 401 branch (which
refreshes the token but produces the auth message whether or not the refresh
succeeded), `data.detail`, ECONNABORTED, else the generic unknown-error text. -/
def p7ErrText : ImportResponse → UploadErrText
  | .httpDetail d => .serverDetail d
  | .timeout => .timeoutMsg
  | _ => .unknownError

/-- Per-file flow of `processFiles` in src/unnamed/part_007 (line 1819
prototype).  Identical to the TransactionsTab.vue flow except on HTTP 401: the
catch calls `getIdToken(true)` (counted as a refresh) but never re-issues the
POST — the freshly obtained token is unused — and the task is left in `error`
with the auth message. -/
def processOneP7 (f : FileInfo) (net : Nat → ImportResponse) (k : Nat) :
    FileOutcome × Nat :=
  if !(validUploadName f.name) then (rejectOutcome (.rejectType f.name), k)
  else if f.size > 10 * 1024 * 1024 then (rejectOutcome (.rejectSize f.name), k)
  else
    match net k with
    | .ok bid s =>
        ({ messages := [.uploading f.name,
              .importOk f.name (s.rows_inserted.getD 0) (dupNoteOf s)],
           task := some { filename := f.name, status := .success,
                          rows := s.rows_inserted.getD 0, batch_id := some bid,
                          summary := some s },
           statusTrace := [.processing, .success], importRequests := 1,
           tokenRefreshes := 0, reloaded := true }, k + 1)
    | .http401 =>
        ({ messages := [.uploading f.name, .importFailed f.name .authFailed],
           task := some { filename := f.name, status := .error, rows := 0,
                          batch_id := none, summary := none },
           statusTrace := [.processing, .error], importRequests := 1,
           tokenRefreshes := 1, reloaded := false }, k + 1)
    | e =>
        ({ messages := [.uploading f.name, .importFailed f.name (p7ErrText e)],
           task := some { filename := f.name, status := .error, rows := 0,
                          batch_id := none, summary := none },
           statusTrace := [.processing, .error], importRequests := 1,
           tokenRefreshes := 0, reloaded := false }, k + 1)

/-- Error text cascade of part_006 for a non-401 first failure:
`data.detail`, ECONNABORTED, status ≥ 500, else `error.message || 'Upload
failed'`. -/
def p6ErrText : ImportResponse → UploadErrText
  | .httpDetail d => .serverDetail d
  | .timeout => .timeoutMsg
  | .http5xx => .serverErrorMsg
  | .netFail m => .otherMsg (if m = "" then "Upload failed" else m)
  | _ => .unknownError

/-- Error text of part_006 when the 401 retry also fails:
`retryError.response?.data?.detail || 'Authentication failed. ...'`. -/
def p6RetryErrText : ImportResponse → UploadErrText
  | .httpDetail d => .serverDetail d
  | _ => .authFailed

/-- Per-file flow of `processFiles` in src/unnamed/part_006.  On HTTP 401 the
catch first sets the task's status to `error`, force-refreshes the token,
rebuilds the form data and retries the POST once; a successful retry sets the
status to `success` (so the trace is processing, error, success), a failed
retry leaves it `error`.  Other failures are not retried. -/
def processOneP6 (f : FileInfo) (net : Nat → ImportResponse) (k : Nat) :
    FileOutcome × Nat :=
  if !(validUploadName f.name) then (rejectOutcome (.rejectType f.name), k)
  else if f.size > 10 * 1024 * 1024 then (rejectOutcome (.rejectSize f.name), k)
  else
    match net k with
    | .ok _ s =>
        ({ messages := [.uploading f.name,
              .importOkAlways f.name (s.rows_inserted.getD 0) (s.rows_duplicated.getD 0)],
           task := some { filename := f.name, status := .success,
                          rows := s.rows_inserted.getD 0, batch_id := none,
                          summary := none },
           statusTrace := [.processing, .success], importRequests := 1,
           tokenRefreshes := 0, reloaded := true }, k + 1)
    | .http401 =>
        match net (k + 1) with
        | .ok _ s =>
            ({ messages := [.uploading f.name,
                  .importOkAlways f.name (s.rows_inserted.getD 0) (s.rows_duplicated.getD 0)],
               task := some { filename := f.name, status := .success,
                              rows := s.rows_inserted.getD 0, batch_id := none,
                              summary := none },
               statusTrace := [.processing, .error, .success], importRequests := 2,
               tokenRefreshes := 1, reloaded := true }, k + 2)
        | e2 =>
            ({ messages := [.uploading f.name, .importFailed f.name (p6RetryErrText e2)],
               task := some { filename := f.name, status := .error, rows := 0,
                              batch_id := none, summary := none },
               statusTrace := [.processing, .error], importRequests := 2,
               tokenRefreshes := 1, reloaded := false }, k + 2)
    | e =>
        ({ messages := [.uploading f.name, .importFailed f.name (p6ErrText e)],
           task := some { filename := f.name, status := .error, rows := 0,
                          batch_id := none, summary := none },
           statusTrace := [.processing, .error], importRequests := 1,
           tokenRefreshes := 0, reloaded := false }, k + 1)

/-- Sequential per-file loop shared by all `processFiles` variants: files are
handled strictly in order, each consuming the oracle from where the previous
one stopped. -/
def processFilesGo (step : FileInfo → (Nat → ImportResponse) → Nat → FileOutcome × Nat) :
    List FileInfo → (Nat → ImportResponse) → Nat → List FileOutcome
  | [], _, _ => []
  | f :: rest, net, k =>
    (step f net k).1 :: processFilesGo step rest net (step f net k).2

/-- Prologue shared by all `processFiles` variants: return on an empty file
list; emit the sign-in prompt and stop when no user is signed in; otherwise run
the per-file loop from oracle position 0.  The first component carries the
prologue's message, the second the per-file outcomes. -/
def processFilesWith (step : FileInfo → (Nat → ImportResponse) → Nat → FileOutcome × Nat)
    (user : Bool) (files : List FileInfo) (net : Nat → ImportResponse) :
    List ChatMsg × List FileOutcome :=
  if files = [] then ([], [])
  else if !user then ([.signInPrompt], [])
  else ([], processFilesGo step files net 0)

/-- The `processFiles` of TransactionsTab.vue. -/
def processFilesTab (user : Bool) (files : List FileInfo) (net : Nat → ImportResponse) :
    List ChatMsg × List FileOutcome :=
  processFilesWith processOneTab user files net

/-- The `processFiles` of src/unnamed/part_006. -/
def processFilesP6 (user : Bool) (files : List FileInfo) (net : Nat → ImportResponse) :
    List ChatMsg × List FileOutcome :=
  processFilesWith processOneP6 user files net

/-- The `processFiles` of the src/unnamed/part_007 line 1819 prototype. -/
def processFilesP7 (user : Bool) (files : List FileInfo) (net : Nat → ImportResponse) :
    List ChatMsg × List FileOutcome :=
  processFilesWith processOneP7 user files net

/-! ## Categorization coordinator (TransactionsTab.vue) -/

/-- Entry of `props.allCategories` as used by the categorize handlers
(`find(c => c.id === categoryId)` followed by `.name`). -/
structure CategoryOption where
  id : String
  name : String
deriving DecidableEq, Repr

/-- Row of the transaction table; only the fields the categorize handlers
touch locally are modelled (`editing_category` is the per-row edit flag). -/
structure TxRow where
  id : String
  editing_category : Bool
deriving DecidableEq, Repr

/-- Reactive state the single-transaction categorize handler reads and writes:
the in-flight id array `categorizingTransactions`, the row array, the chat
history, and a count of POSTs to /transactions/categorize. -/
structure CatState where
  categorizing : List String
  transactions : List TxRow
  messages : List ChatMsg
  categorizeRequests : Nat
deriving DecidableEq, Repr

/-- Synchronous prefix of `categorizeTransaction` up to the POST: the guard
`if (!categoryId || categorizingTransactions.value.includes(transactionId))
return` makes the call a no-op; otherwise the id is pushed onto the in-flight
array, the row's edit flag is cleared and the request is issued.  The returned
flag says whether a request was issued. -/
def categorizeStart (st : CatState) (txId catId : String) : CatState × Bool :=
  if catId = "" ∨ txId ∈ st.categorizing then (st, false)
  else
    ({ st with
        categorizing := st.categorizing ++ [txId],
        transactions := st.transactions.map fun t =>
          if t.id = txId then { t with editing_category := false } else t,
        categorizeRequests := st.categorizeRequests + 1 }, true)

/-- Continuation of `categorizeTransaction` once the POST settled: the success
branch emits the confirmation naming the resolved category, the catch branch
emits the failure message, and the `finally` removes the id from the in-flight
array in both cases. -/
def categorizeFinish (cats : List CategoryOption) (st : CatState) (txId catId : String)
    (ok : Bool) : CatState :=
  let st2 :=
    if ok then
      { st with messages := st.messages ++
          [ChatMsg.manualCategorized ((cats.find? fun c => c.id == catId).map fun c => c.name)] }
    else
      { st with messages := st.messages ++ [ChatMsg.categorizeFailedMsg] }
  { st2 with categorizing := st2.categorizing.filter fun x => x ≠ txId }

/-- An uninterrupted run of `categorizeTransaction(transactionId, categoryId)`:
the guard/start phase followed, when a request was issued, by the finish phase
with the request's result.  The success path also reloads the list and summary
(not modelled here beyond the emitted message). -/
def categorizeTransaction (cats : List CategoryOption) (st : CatState)
    (txId catId : String) (ok : Bool) : CatState :=
  let s := categorizeStart st txId catId
  if s.2 then categorizeFinish cats s.1 txId catId ok else s.1

/-- Reactive state of the bulk categorize handler: the selection, the chosen
bulk category id and the chat history. -/
structure BulkState where
  selectedTransactions : List String
  bulkCategoryId : String
  messages : List ChatMsg
deriving DecidableEq, Repr

/-- The `bulkCategorize` handler of TransactionsTab.vue: guarded by a non-empty
category id and a non-empty selection; one POST to /transactions/bulk-categorize
(`ok` is its result); on success the confirmation names the resolved category
and the count read before clearing, then the selection and the bulk id are
cleared; the catch emits the failure message and clears nothing.  The returned
number counts POSTs issued. -/
def bulkCategorize (cats : List CategoryOption) (st : BulkState) (ok : Bool) :
    BulkState × Nat :=
  if st.bulkCategoryId = "" ∨ st.selectedTransactions = [] then (st, 0)
  else if ok then
    ({ st with
        messages := st.messages ++
          [ChatMsg.bulkOk st.selectedTransactions.length
              ((cats.find? fun c => c.id == st.bulkCategoryId).map fun c => c.name)],
        selectedTransactions := [],
        bulkCategoryId := "" }, 1)
  else
    ({ st with messages := st.messages ++ [ChatMsg.bulkFailedMsg] }, 1)

/-! ## Filter / sort / pagination state (TransactionsTab.vue) -/

/-- The `filters` ref: all fields the component tracks.  Amounts are nullable
numbers (`null` initially); the remaining fields are strings that are empty
when unset. -/
structure Filters where
  startDate : String
  endDate : String
  minAmount : Option Int
  maxAmount : Option Int
  merchant : String
  mainCategory : String
  categoryFilter : String
  transactionType : String
deriving DecidableEq, Repr

/-- The pagination / sorting / filter refs of the component. -/
structure ListState where
  currentPage : Int
  pageSize : Int
  sortBy : String
  sortOrder : String
  filters : Filters
deriving DecidableEq, Repr

/-- Query parameters `loadTransactions` builds (URLSearchParams order of the
source): page, limit, sort_by and sort_order always; each filter parameter is
spread in only when the field is truthy, so empty strings, `null` amounts and
amounts equal to 0 are all omitted.  (`mainCategory` / `categoryFilter` are
filtered client-side and never sent.) -/
def buildParams (st : ListState) : List (String × String) :=
  [("page", toString st.currentPage), ("limit", toString st.pageSize),
   ("sort_by", st.sortBy), ("sort_order", st.sortOrder)]
  ++ (if st.filters.startDate ≠ "" then [("start_date", st.filters.startDate)] else [])
  ++ (if st.filters.endDate ≠ "" then [("end_date", st.filters.endDate)] else [])
  ++ (if st.filters.merchant ≠ "" then [("merchant", st.filters.merchant)] else [])
  ++ (match st.filters.minAmount with
      | some v => if v = 0 then [] else [("min_amount", toString v)]
      | none => [])
  ++ (match st.filters.maxAmount with
      | some v => if v = 0 then [] else [("max_amount", toString v)]
      | none => [])
  ++ (if st.filters.transactionType ≠ "" then [("transaction_type", st.filters.transactionType)] else [])

/-- Effect of mutating the `filters` ref to a new value, derived from the two
watchers of the component.  A mutation that actually changes a field triggers
the deep `watch(filters, ...)`, whose callback sets `currentPage` to 1 and
calls `loadTransactions`; if that assignment changes `currentPage` (i.e. the
page was not already 1), it additionally triggers the
`watch([currentPage, pageSize, sortBy, sortOrder], ...)` job, which calls
`loadTransactions` a second time.  Both requests are built from the updated
state.  Setting a field to its current value does not trigger the watcher.
The second component lists the query parameters of each issued list request,
in order. -/
def setFilters (st : ListState) (f2 : Filters) : ListState × List (List (String × String)) :=
  if f2 = st.filters then ({ st with filters := f2 }, [])
  else if st.currentPage = 1 then
    ({ st with filters := f2, currentPage := 1 },
     [buildParams { st with filters := f2, currentPage := 1 }])
  else
    ({ st with filters := f2, currentPage := 1 },
     [buildParams { st with filters := f2, currentPage := 1 },
      buildParams { st with filters := f2, currentPage := 1 }])

/-- The `toggleSort` handler: clicking the active column flips asc/desc,
clicking a new column selects it with "desc".  `currentPage` is not touched. -/
def toggleSort (st : ListState) (column : String) : ListState :=
  if st.sortBy = column then
    { st with sortOrder := if st.sortOrder = "desc" then "asc" else "desc" }
  else
    { st with sortBy := column, sortOrder := "desc" }

/-- The `changePage` handler: accepts the new page only when it is ≥ 1. -/
def changePage (st : ListState) (newPage : Int) : ListState :=
  if newPage ≥ 1 then { st with currentPage := newPage } else st

/-- Effect of picking a new page size: the select's v-model writes `pageSize`
and the `changePageSize` handler resets `currentPage` to 1 and reloads. -/
def changePageSize (st : ListState) (size : Int) : ListState :=
  { st with pageSize := size, currentPage := 1 }

/-- The empty filter value `clearFilters` assigns. -/
def emptyFilters : Filters :=
  { startDate := "", endDate := "", minAmount := none, maxAmount := none,
    merchant := "", mainCategory := "", categoryFilter := "", transactionType := "" }

/-- The `clearFilters` handler: replaces the `filters` ref wholesale; the page
reset and the reload happen through the filters watcher. -/
def clearFilters (st : ListState) : ListState × List (List (String × String)) :=
  setFilters st emptyFilters

/-! ## Concrete inputs used to exercise the model -/

/-- A small valid CSV upload. -/
def csvFile : FileInfo := { name := "a.csv", size := 100 }

/-- Oracle answering 401 to the first import POST and success to any retry. -/
def net401ok : Nat → ImportResponse :=
  fun n => if n = 0 then .http401 else .ok "b1" { rows_inserted := some 5, rows_duplicated := some 0 }

/-- Oracle answering success with 5 rows inserted and 0 duplicated. -/
def netOkDup0 : Nat → ImportResponse :=
  fun _ => .ok "b1" { rows_inserted := some 5, rows_duplicated := some 0 }

/-- List state sitting on page 2 with default sorting and empty filters. -/
def stPage2 : ListState :=
  { currentPage := 2, pageSize := 50, sortBy := "posted_at", sortOrder := "desc",
    filters := emptyFilters }

/-- Filter value with a merchant substring set. -/
def filtersMerch : Filters := { emptyFilters with merchant := "shop" }

/-- List state whose amount bounds are 0 (min) and unset (max). -/
def stAmounts0 : ListState :=
  { currentPage := 1, pageSize := 50, sortBy := "posted_at", sortOrder := "desc",
    filters := { emptyFilters with minAmount := some 0 } }

/-- List state with a nonzero minimum amount bound. -/
def stAmounts5 : ListState :=
  { currentPage := 1, pageSize := 50, sortBy := "posted_at", sortOrder := "desc",
    filters := { emptyFilters with minAmount := some 5 } }

/-- Categorization state with transaction t1 already in flight. -/
def stInFlight : CatState :=
  { categorizing := ["t1"], transactions := [{ id := "t1", editing_category := true }],
    messages := [], categorizeRequests := 0 }

/-- Bulk state with two selected transactions and a chosen category. -/
def stBulk : BulkState :=
  { selectedTransactions := ["t1", "t2"], bulkCategoryId := "groceries", messages := [] }

/-! ## Theorems -/

@[simp] lemma nodeId_ttype (t : TransType) : (CatNode.ttype t).nodeId = t.id := rfl

@[simp] lemma nodeId_cat (c : Category) : (CatNode.cat c).nodeId = c.id := rfl

@[simp] lemma nodeId_sub (s : Subcategory) : (CatNode.sub s).nodeId = s.id := rfl

lemma scanCategories_eq_find? (i : String) (cs : List Category) :
    scanCategories i cs = (catListNodes cs).find? (fun n => n.nodeId == i) := by
  induction cs with
  | nil => simp [scanCategories, catListNodes]
  | cons c cs ih =>
    simp only [scanCategories, catListNodes, List.cons_append, List.find?_cons,
      List.find?_append, List.find?_map, Function.comp, nodeId_cat, nodeId_sub, ih]
    cases h : c.id == i with
    | true => simp [h]
    | false =>
      cases hf : c.children.find? (fun child => child.id == i) with
      | none => simp [h, hf, Function.comp_def]
      | some s => simp [h, hf, Function.comp_def]

lemma scanTypes_eq_find? (i : String) (ts : List TransType) :
    scanTypes i ts = (dfsNodes ts).find? (fun n => n.nodeId == i) := by
  induction ts with
  | nil => simp [scanTypes, dfsNodes]
  | cons t ts ih =>
    simp only [scanTypes, dfsNodes, List.cons_append, List.find?_cons,
      List.find?_append, nodeId_ttype, ih, scanCategories_eq_find?]
    cases h : t.id == i with
    | true => simp [h]
    | false =>
      cases hf : (catListNodes t.categories).find? (fun n => n.nodeId == i) with
      | none => simp [h, hf]
      | some n => simp [h, hf]

/-- C8: `getCategoryById id` is exactly the first node whose id matches in the
depth-first (type → category → subcategory) preorder of the taxonomy, and it is
`none` (a returned null, never an exception — the function is total) precisely
when no node of the taxonomy carries the id. -/
theorem getCategoryById_first_dfs_match (i : String) :
    getCategoryById i = (dfsNodes categoriesData).find? (fun n => n.nodeId == i) ∧
    (getCategoryById i = none ↔ ∀ n ∈ dfsNodes categoriesData, n.nodeId ≠ i) := by
  have h := scanTypes_eq_find? i categoriesData
  refine ⟨h, ?_⟩
  rw [getCategoryById, h, List.find?_eq_none]
  simp

lemma length_processFilesGo (step) (files : List FileInfo) (net : Nat → ImportResponse)
    (k : Nat) : (processFilesGo step files net k).length = files.length := by
  induction files generalizing k with
  | nil => rfl
  | cons f rest ih => simp [processFilesGo, ih]

lemma mem_buildParams_min (st : ListState) (s : String) :
    ("min_amount", s) ∈ buildParams st ↔
      ∃ v : Int, st.filters.minAmount = some v ∧ v ≠ 0 ∧ s = toString v := by
  unfold buildParams
  cases hmin : st.filters.minAmount with
  | none =>
    cases hmax : st.filters.maxAmount with
    | none => split_ifs <;> simp
    | some w => split_ifs <;> simp
  | some v =>
    cases hmax : st.filters.maxAmount with
    | none => split_ifs <;> simp_all
    | some w => split_ifs <;> simp_all

lemma mem_buildParams_max (st : ListState) (s : String) :
    ("max_amount", s) ∈ buildParams st ↔
      ∃ v : Int, st.filters.maxAmount = some v ∧ v ≠ 0 ∧ s = toString v := by
  unfold buildParams
  cases hmin : st.filters.minAmount with
  | none =>
    cases hmax : st.filters.maxAmount with
    | none => split_ifs <;> simp
    | some w => split_ifs <;> simp_all
  | some v =>
    cases hmax : st.filters.maxAmount with
    | none => split_ifs <;> simp
    | some w => split_ifs <;> simp_all

/-- C9: `loadTransactions` spreads `min_amount` / `max_amount` into the query
only when the corresponding filter value is truthy, so a bound of exactly 0 is
omitted just like an unset (`null`) bound, and a nonzero bound is sent. -/
theorem amount_zero_bound_omitted (st : ListState) :
    (st.filters.minAmount = some 0 → ∀ s, ("min_amount", s) ∉ buildParams st) ∧
    (st.filters.minAmount = none → ∀ s, ("min_amount", s) ∉ buildParams st) ∧
    (∀ v : Int, st.filters.minAmount = some v → v ≠ 0 →
      ("min_amount", toString v) ∈ buildParams st) ∧
    (st.filters.maxAmount = some 0 → ∀ s, ("max_amount", s) ∉ buildParams st) ∧
    (st.filters.maxAmount = none → ∀ s, ("max_amount", s) ∉ buildParams st) ∧
    (∀ v : Int, st.filters.maxAmount = some v → v ≠ 0 →
      ("max_amount", toString v) ∈ buildParams st) := by
  refine ⟨fun h s hm => ?_, fun h s hm => ?_, fun v hv hnz => ?_,
          fun h s hm => ?_, fun h s hm => ?_, fun v hv hnz => ?_⟩
  · rcases (mem_buildParams_min st s).mp hm with ⟨v, hv, hnz, _⟩
    rw [h] at hv
    exact hnz (Option.some_injective _ hv).symm
  · rcases (mem_buildParams_min st s).mp hm with ⟨v, hv, _, _⟩
    rw [h] at hv
    exact Option.noConfusion hv
  · exact (mem_buildParams_min st (toString v)).mpr ⟨v, hv, hnz, rfl⟩
  · rcases (mem_buildParams_max st s).mp hm with ⟨v, hv, hnz, _⟩
    rw [h] at hv
    exact hnz (Option.some_injective _ hv).symm
  · rcases (mem_buildParams_max st s).mp hm with ⟨v, hv, _, _⟩
    rw [h] at hv
    exact Option.noConfusion hv
  · exact (mem_buildParams_max st (toString v)).mpr ⟨v, hv, hnz, rfl⟩

/-- Witness for C9: with min bound 0 the parameter is absent; with min bound 5
it is present. -/
theorem amount_zero_bound_omitted_witness :
    ("min_amount", "0") ∉ buildParams stAmounts0 ∧
    ("max_amount", "3") ∉ buildParams stAmounts0 ∧
    ("min_amount", "5") ∈ buildParams stAmounts5 :=
  ⟨(amount_zero_bound_omitted stAmounts0).1 rfl "0",
   (amount_zero_bound_omitted stAmounts0).2.2.2.2.1 rfl "3",
   (amount_zero_bound_omitted stAmounts5).2.2.1 5 rfl (by decide)⟩

/-- Counterexample for C4: `toggleSort` changes the sort column (and hence the
sort of the list) starting from page 2, yet the page stays 2 — changing the
sort does not reset the page to 1. -/
theorem toggleSort_keeps_page :
    stPage2.sortBy = "posted_at" ∧
    (toggleSort stPage2 "merchant").sortBy = "merchant" ∧
    (toggleSort stPage2 "merchant").currentPage = 2 := by decide

/-- C4 (amended): the cursor invariant `page ≥ 1` is preserved by every
modelled operation, and changing the page size resets the page to 1; changing
the sort column or direction, however, leaves the page unchanged (it only
triggers a reload through the pagination watcher). -/
theorem page_cursor_invariant (st : ListState) (h : 1 ≤ st.currentPage) :
    (∀ c, (toggleSort st c).currentPage = st.currentPage ∧
      1 ≤ (toggleSort st c).currentPage) ∧
    (∀ n, 1 ≤ (changePage st n).currentPage) ∧
    (∀ sz, (changePageSize st sz).currentPage = 1) ∧
    (∀ f2, 1 ≤ (setFilters st f2).1.currentPage) ∧
    1 ≤ (clearFilters st).1.currentPage := by
  refine ⟨fun c => ?_, fun n => ?_, fun sz => rfl, fun f2 => ?_, ?_⟩
  · unfold toggleSort
    split_ifs <;> exact ⟨rfl, h⟩
  · unfold changePage
    split_ifs with hn
    · exact hn
    · exact h
  · unfold setFilters
    split_ifs <;> simp [h]
  · unfold clearFilters setFilters
    split_ifs <;> simp [h]

/-- Witness for C4: the cursor operations evaluated on the concrete page-2
state. -/
theorem page_cursor_invariant_witness :
    (1 : Int) ≤ stPage2.currentPage ∧
    (toggleSort stPage2 "amount").currentPage = stPage2.currentPage ∧
    1 ≤ (changePage stPage2 (-3)).currentPage ∧
    (changePageSize stPage2 100).currentPage = 1 ∧
    1 ≤ (setFilters stPage2 filtersMerch).1.currentPage :=
  ⟨by decide,
   ((page_cursor_invariant stPage2 (by decide)).1 "amount").1,
   (page_cursor_invariant stPage2 (by decide)).2.1 (-3),
   (page_cursor_invariant stPage2 (by decide)).2.2.1 100,
   (page_cursor_invariant stPage2 (by decide)).2.2.2.1 filtersMerch⟩

/-- C10: when the bulk-categorize POST fails, the selection and the chosen bulk
category id are left untouched (so the user can retry); they are cleared
exactly on the success path, after the server confirmed. -/
theorem bulk_failure_preserves_selection (cats : List CategoryOption) (st : BulkState)
    (h : ¬(st.bulkCategoryId = "" ∨ st.selectedTransactions = [])) :
    (bulkCategorize cats st false).1.selectedTransactions = st.selectedTransactions ∧
    (bulkCategorize cats st false).1.bulkCategoryId = st.bulkCategoryId ∧
    (bulkCategorize cats st true).1.selectedTransactions = [] ∧
    (bulkCategorize cats st true).1.bulkCategoryId = "" := by
  unfold bulkCategorize
  rw [if_neg h, if_neg h]
  simp

/-- Witness for C10: a failing and a succeeding bulk call on a two-element
selection. -/
theorem bulk_failure_preserves_selection_witness :
    (bulkCategorize [] stBulk false).1.selectedTransactions = ["t1", "t2"] ∧
    (bulkCategorize [] stBulk false).1.bulkCategoryId = "groceries" ∧
    (bulkCategorize [] stBulk true).1.selectedTransactions = [] ∧
    (bulkCategorize [] stBulk true).1.bulkCategoryId = "" :=
  bulk_failure_preserves_selection [] stBulk (by decide)

/-- C2: a `categorizeTransaction` call for an id already in the in-flight array
returns at the guard — the state is unchanged and no request is issued; any
start only pushes an id that is absent, so a duplicate-free in-flight array
stays duplicate-free (at most one outstanding call per id); and the finish
phase (the `finally`) removes the id whether the POST succeeded or failed. -/
theorem categorize_single_flight (cats : List CategoryOption) (st : CatState)
    (txId catId : String) (ok : Bool)
    (hin : txId ∈ st.categorizing) (hnd : st.categorizing.Nodup) :
    categorizeTransaction cats st txId catId ok = st ∧
    (categorizeStart st txId catId).2 = false ∧
    (∀ t2 c2, ((categorizeStart st t2 c2).1.categorizing.Nodup)) ∧
    (∀ st2 ok2, txId ∉ (categorizeFinish cats st2 txId catId ok2).categorizing) := by
  have hguard : catId = "" ∨ txId ∈ st.categorizing := Or.inr hin
  refine ⟨?_, ?_, fun t2 c2 => ?_, fun st2 ok2 => ?_⟩
  · unfold categorizeTransaction categorizeStart
    rw [if_pos hguard]
    rfl
  · unfold categorizeStart
    rw [if_pos hguard]
  · unfold categorizeStart
    split_ifs with hg
    · exact hnd
    · push_neg at hg
      rw [List.nodup_append]
      refine ⟨hnd, List.nodup_singleton t2, ?_⟩
      rw [List.disjoint_left]
      intro a ha hmem
      rw [List.mem_singleton] at hmem
      exact hg.2 (hmem ▸ ha)
  · unfold categorizeFinish
    cases ok2 <;> simp [List.mem_filter]

/-- Witness for C2: a call for in-flight t1 is a no-op, a start for fresh t2
keeps the array duplicate-free, and a failed finish removes t1. -/
theorem categorize_single_flight_witness :
    categorizeTransaction [] stInFlight "t1" "groceries" true = stInFlight ∧
    (categorizeStart stInFlight "t1" "groceries").2 = false ∧
    ((categorizeStart stInFlight "t2" "groceries").1.categorizing.Nodup) ∧
    "t1" ∉ (categorizeFinish [] stInFlight "t1" "groceries" false).categorizing := by
  have h := categorize_single_flight [] stInFlight "t1" "groceries" true
    (by decide) (by decide)
  exact ⟨h.1, h.2.1, h.2.2.1 "t2" "groceries", h.2.2.2 stInFlight false⟩

lemma mem_buildParams_merchant (st : ListState) (hm : st.filters.merchant ≠ "") :
    ("merchant", st.filters.merchant) ∈ buildParams st := by
  unfold buildParams
  simp [hm]

/-- Counterexample for C3: mutating the merchant filter while the cursor sits
on page 2 fires two list reloads, not one — the filters watcher resets the
page and calls `loadTransactions`, and the page change triggers the
pagination watcher, which calls it again. -/
theorem filters_change_double_reload :
    stPage2.currentPage = 2 ∧
    (setFilters stPage2 filtersMerch).1.currentPage = 1 ∧
    ((setFilters stPage2 filtersMerch).2).length = 2 := by decide

/-- C3 (amended): a mutation that changes a filter field resets the cursor to
page 1 and triggers a reload whose parameters are built from the updated state
(so the new filter values are reflected); exactly one reload fires when the
page already was 1, and a second identical reload fires through the pagination
watcher when the page number actually changes. -/
theorem filters_change_resets_page_and_reloads (st : ListState) (f2 : Filters)
    (h : f2 ≠ st.filters) :
    (setFilters st f2).1.currentPage = 1 ∧
    (setFilters st f2).1.filters = f2 ∧
    (setFilters st f2).2 ≠ [] ∧
    (∀ r ∈ (setFilters st f2).2, r = buildParams (setFilters st f2).1) ∧
    (st.currentPage = 1 → (setFilters st f2).2 = [buildParams (setFilters st f2).1]) ∧
    (st.currentPage ≠ 1 → (setFilters st f2).2 =
      [buildParams (setFilters st f2).1, buildParams (setFilters st f2).1]) ∧
    (f2.merchant ≠ "" → ("merchant", f2.merchant) ∈ buildParams (setFilters st f2).1) := by
  by_cases hp : st.currentPage = 1
  · unfold setFilters
    rw [if_neg h, if_pos hp]
    refine ⟨rfl, rfl, by simp, ?_, fun _ => rfl, fun hne => absurd hp hne, ?_⟩
    · intro r hr
      rw [List.mem_singleton] at hr
      exact hr
    · intro hm
      exact mem_buildParams_merchant _ hm
  · unfold setFilters
    rw [if_neg h, if_neg hp]
    refine ⟨rfl, rfl, by simp, ?_, fun heq => absurd heq hp, fun _ => rfl, ?_⟩
    · intro r hr
      rw [List.mem_cons, List.mem_singleton] at hr
      rcases hr with hr | hr
      · exact hr
      · exact hr
    · intro hm
      exact mem_buildParams_merchant _ hm

/-- Witness for C3 (amended): the concrete page-2 merchant mutation, with the
new merchant value present in the issued request. -/
theorem filters_change_resets_page_and_reloads_witness :
    (setFilters stPage2 filtersMerch).1.currentPage = 1 ∧
    (setFilters stPage2 filtersMerch).2 =
      [buildParams (setFilters stPage2 filtersMerch).1,
       buildParams (setFilters stPage2 filtersMerch).1] ∧
    ("merchant", "shop") ∈ buildParams (setFilters stPage2 filtersMerch).1 := by
  have h := filters_change_resets_page_and_reloads stPage2 filtersMerch (by decide)
  exact ⟨h.1, h.2.2.2.2.2.1 (by decide), h.2.2.2.2.2.2 (by decide)⟩

/-- A plain-text file, rejected by the extension check. -/
def txtFile : FileInfo := { name := "notes.txt", size := 100 }

/-- C6: a file whose lower-cased name matches neither `.csv` nor `.xlsx`, or
whose size exceeds 10 MiB, consumes no network response, issues no import
request, creates no upload task and yields exactly one rejection message; the
loop then continues with the remaining files against the untouched oracle. -/
theorem submitFiles_rejects_invalid (f : FileInfo) (rest : List FileInfo)
    (net : Nat → ImportResponse) (k : Nat)
    (h : validUploadName f.name = false ∨ 10 * 1024 * 1024 < f.size) :
    (processOneTab f net k).2 = k ∧
    (processOneTab f net k).1.importRequests = 0 ∧
    (processOneTab f net k).1.task = none ∧
    ((processOneTab f net k).1.messages = [ChatMsg.rejectType f.name] ∨
      (processOneTab f net k).1.messages = [ChatMsg.rejectSize f.name]) ∧
    processFilesGo processOneTab (f :: rest) net k =
      (processOneTab f net k).1 :: processFilesGo processOneTab rest net k ∧
    (processFilesGo processOneTab (f :: rest) net k).length = rest.length + 1 := by
  have hstep : processOneTab f net k = (rejectOutcome (.rejectType f.name), k) ∨
      processOneTab f net k = (rejectOutcome (.rejectSize f.name), k) := by
    cases hv : validUploadName f.name with
    | false =>
      left
      simp [processOneTab, hv]
    | true =>
      rcases h with h | h
      · rw [hv] at h
        exact absurd h (by simp)
      · right
        simp [processOneTab, hv, h]
  rcases hstep with hstep | hstep <;>
    simp [hstep, rejectOutcome, processFilesGo, length_processFilesGo]

/-- Witness for C6: a `.txt` file followed by a valid `.csv` file; the first is
rejected without touching the oracle and the second is still processed. -/
theorem submitFiles_rejects_invalid_witness :
    (processOneTab txtFile netOkDup0 0).2 = 0 ∧
    (processOneTab txtFile netOkDup0 0).1.importRequests = 0 ∧
    (processOneTab txtFile netOkDup0 0).1.task = none ∧
    ((processOneTab txtFile netOkDup0 0).1.messages = [ChatMsg.rejectType "notes.txt"] ∨
      (processOneTab txtFile netOkDup0 0).1.messages = [ChatMsg.rejectSize "notes.txt"]) ∧
    processFilesGo processOneTab [txtFile, csvFile] netOkDup0 0 =
      (processOneTab txtFile netOkDup0 0).1 ::
        processFilesGo processOneTab [csvFile] netOkDup0 0 ∧
    (processFilesGo processOneTab [txtFile, csvFile] netOkDup0 0).length = 2 :=
  submitFiles_rejects_invalid txtFile [csvFile] netOkDup0 0 (Or.inl (by decide))

/-- Counterexample for C7: for a successful import whose server summary reports
5 rows inserted and 0 rows duplicated, the TransactionsTab.vue success message
carries no duplicates note at all (the `rows_duplicated ? ... : ''` ternary
drops it), so it does not report D = 0. -/
theorem tab_message_omits_zero_duplicates :
    netOkDup0 0 = ImportResponse.ok "b1"
      { rows_inserted := some 5, rows_duplicated := some 0 } ∧
    (processOneTab csvFile netOkDup0 0).1.messages =
      [ChatMsg.uploading "a.csv", ChatMsg.importOk "a.csv" 5 none] ∧
    (ChatMsg.importOk "a.csv" 5 none ≠ ChatMsg.importOk "a.csv" 5 (some 0)) ∧
    (processOneTab csvFile netOkDup0 0).1.task =
      some { filename := "a.csv", status := UStatus.success, rows := 5,
             batch_id := some "b1",
             summary := some { rows_inserted := some 5, rows_duplicated := some 0 } } := by
  decide

/-- C7 (amended): for a successful import reporting N rows inserted and D rows
duplicated, the task status becomes success with its rows count set to N, and
the emitted message reports N; the TransactionsTab.vue message reports D
exactly when D is nonzero, while the part_006 variant always reports D. -/
theorem import_success_reports (f : FileInfo) (net : Nat → ImportResponse) (k : Nat)
    (bid : String) (N D : Nat)
    (hval : validUploadName f.name = true)
    (hsize : ¬(f.size > 10 * 1024 * 1024))
    (hresp : net k = ImportResponse.ok bid
      { rows_inserted := some N, rows_duplicated := some D }) :
    ((processOneTab f net k).1.task.map fun t => t.status) = some UStatus.success ∧
    ((processOneTab f net k).1.task.map fun t => t.rows) = some N ∧
    (processOneTab f net k).1.messages =
      [ChatMsg.uploading f.name,
       ChatMsg.importOk f.name N (if D = 0 then none else some D)] ∧
    ((processOneP6 f net k).1.task.map fun t => t.status) = some UStatus.success ∧
    ((processOneP6 f net k).1.task.map fun t => t.rows) = some N ∧
    (processOneP6 f net k).1.messages =
      [ChatMsg.uploading f.name, ChatMsg.importOkAlways f.name N D] := by
  simp [processOneTab, processOneP6, hval, hsize, hresp, dupNoteOf]

/-- Witness for C7 (amended): the concrete 5-rows / 0-duplicates import. -/
theorem import_success_reports_witness :
    ((processOneTab csvFile netOkDup0 0).1.task.map fun t => t.status) =
      some UStatus.success ∧
    ((processOneTab csvFile netOkDup0 0).1.task.map fun t => t.rows) = some 5 ∧
    (processOneP6 csvFile netOkDup0 0).1.messages =
      [ChatMsg.uploading "a.csv", ChatMsg.importOkAlways "a.csv" 5 0] := by
  have h := import_success_reports csvFile netOkDup0 0 "b1" 5 0 (by decide) (by decide) rfl
  exact ⟨h.1, h.2.1, h.2.2.2.2.2⟩

/-- Counterexample for C5: in the part_006 variant, one 401 followed by a
successful retry drives the task's status through processing, error, success —
the status moves from error to success, which the claimed invariant forbids. -/
theorem p6_retry_error_then_success :
    (processOneP6 csvFile net401ok 0).1.statusTrace =
      [UStatus.processing, UStatus.error, UStatus.success] ∧
    (processOneP6 csvFile net401ok 0).1.statusTrace.get? 1 = some UStatus.error ∧
    (processOneP6 csvFile net401ok 0).1.statusTrace.get? 2 = some UStatus.success := by
  decide

/-- C5 (amended): in the TransactionsTab.vue and part_007 variants the status
indeed only ever moves processing→success or processing→error; in the part_006
variant one further shape occurs — processing→error→success, exactly when the
first POST returns 401 (the catch pessimistically marks the task error before
retrying, and a successful retry flips it to success). -/
theorem upload_status_transition_shapes (f : FileInfo) (net : Nat → ImportResponse)
    (k : Nat) :
    ((processOneTab f net k).1.statusTrace = [] ∨
     (processOneTab f net k).1.statusTrace = [UStatus.processing, UStatus.success] ∨
     (processOneTab f net k).1.statusTrace = [UStatus.processing, UStatus.error]) ∧
    ((processOneP7 f net k).1.statusTrace = [] ∨
     (processOneP7 f net k).1.statusTrace = [UStatus.processing, UStatus.success] ∨
     (processOneP7 f net k).1.statusTrace = [UStatus.processing, UStatus.error]) ∧
    ((processOneP6 f net k).1.statusTrace = [] ∨
     (processOneP6 f net k).1.statusTrace = [UStatus.processing, UStatus.success] ∨
     (processOneP6 f net k).1.statusTrace = [UStatus.processing, UStatus.error] ∨
     ((processOneP6 f net k).1.statusTrace =
        [UStatus.processing, UStatus.error, UStatus.success] ∧
      net k = ImportResponse.http401)) := by
  refine ⟨?_, ?_, ?_⟩
  · cases hv : validUploadName f.name
    · simp [processOneTab, hv, rejectOutcome]
    · by_cases hs : f.size > 10 * 1024 * 1024
      · simp [processOneTab, hv, hs, rejectOutcome]
      · cases hr : net k <;> simp [processOneTab, hv, hs, hr]
  · cases hv : validUploadName f.name
    · simp [processOneP7, hv, rejectOutcome]
    · by_cases hs : f.size > 10 * 1024 * 1024
      · simp [processOneP7, hv, hs, rejectOutcome]
      · cases hr : net k <;> simp [processOneP7, hv, hs, hr]
  · cases hv : validUploadName f.name
    · simp [processOneP6, hv, rejectOutcome]
    · by_cases hs : f.size > 10 * 1024 * 1024
      · simp [processOneP6, hv, hs, rejectOutcome]
      · cases hr : net k
        · simp [processOneP6, hv, hs, hr]
        · cases hr2 : net (k + 1) <;> simp [processOneP6, hv, hs, hr, hr2]
        · simp [processOneP6, hv, hs, hr]
        · simp [processOneP6, hv, hs, hr]
        · simp [processOneP6, hv, hs, hr]
        · simp [processOneP6, hv, hs, hr]

/-- C1 (code bug): for a valid upload whose first import POST returns 401 and
whose retry would return 200, the part_007 coordinator performs the forced
token refresh but never re-issues the POST — only one import request is made
and the task ends in error with the auth message — and the TransactionsTab.vue
coordinator does not even refresh.  The part_006 variant shows the intended
behaviour on the same oracle: two requests, one refresh, task success. -/
theorem upload_401_retry_missing :
    net401ok 0 = ImportResponse.http401 ∧
    (∃ b s, net401ok 1 = ImportResponse.ok b s) ∧
    (processOneP7 csvFile net401ok 0).1.statusTrace =
      [UStatus.processing, UStatus.error] ∧
    (processOneP7 csvFile net401ok 0).1.importRequests = 1 ∧
    (processOneP7 csvFile net401ok 0).1.tokenRefreshes = 1 ∧
    (processOneP7 csvFile net401ok 0).1.messages =
      [ChatMsg.uploading "a.csv", ChatMsg.importFailed "a.csv" UploadErrText.authFailed] ∧
    (processOneTab csvFile net401ok 0).1.statusTrace =
      [UStatus.processing, UStatus.error] ∧
    (processOneTab csvFile net401ok 0).1.tokenRefreshes = 0 ∧
    (processOneP6 csvFile net401ok 0).1.statusTrace =
      [UStatus.processing, UStatus.error, UStatus.success] ∧
    (processOneP6 csvFile net401ok 0).1.importRequests = 2 ∧
    (processOneP6 csvFile net401ok 0).1.tokenRefreshes = 1 := by
  refine ⟨rfl, ⟨"b1", { rows_inserted := some 5, rows_duplicated := some 0 }, rfl⟩, ?_⟩
  decide

end SFP
